import Mathlib

/-!
Verification development for the `sqlite3_ext` binding layer.

The Rust sources are shallowly embedded: pure logic becomes Lean functions,
raw-pointer output slots become explicit `Option` state, machine integers
(`c_int`, `i32`, `i64`) become `Int`.  Definitions follow the Rust source
file-by-file; where a definition lives in a module of the repository that is
not available (the `ffi` module, the `globals` module with the
`sqlite3_require_version!` macro, and `function/context.rs`), it is modelled
from the specification and marked as such in its doc comment.
-/

namespace Sqlite3Ext

/-! ## ffi: SQLite's standard result codes (fixed external C interface) -/

def SQLITE_OK : Int := 0

def SQLITE_ERROR : Int := 1

def SQLITE_ROW : Int := 100

def SQLITE_DONE : Int := 101

def SQLITE_OK_LOAD_PERMANENTLY : Int := 256

/-! ## src/types.rs: the Error type -/

/-- The `Error` enum of `src/types.rs`.  The `Utf8Error` and `NulError`
payloads are `std` error values whose only observable use in this crate is
their `Display` rendering; each is embedded as the string its `Display`
implementation produces. -/
inductive Error where
  | Sqlite (code : Int)
  | Utf8Error (displayed : String)
  | NulError (displayed : String)
  | VersionNotSatisfied (v : Int)
  | Module (s : String)
  | NoChange
  deriving DecidableEq, Repr

/-- `Error::from_sqlite` from `src/types.rs` lines 41-46. -/
def Error.from_sqlite (rc : Int) : Except Error Unit :=
  if rc = SQLITE_OK ∨ rc = SQLITE_ROW ∨ rc = SQLITE_DONE then
    Except.ok ()
  else
    Except.error (Error.Sqlite rc)

/-- Modelled from the spec: the `sqlite3_require_version!` macro of the
missing `globals` module, two-argument form.  A single runtime version
comparison guards a gated expression: when the running engine version
reaches the required version the expression is evaluated, otherwise a typed
version-not-satisfied error carrying the required version is returned. -/
def sqlite3_require_version2 {α : Type} (running required : Int)
    (expr : Except Error α) : Except Error α :=
  if required ≤ running then expr
  else Except.error (Error.VersionNotSatisfied required)

/-- Modelled from the spec: the `sqlite3_require_version!` macro of the
missing `globals` module, three-argument form.  The gated expression is
evaluated when the running engine version reaches the required version, and
the fallback expression is evaluated on older engines. -/
def sqlite3_require_version3 {α : Type} (running required : Int)
    (expr fallback : α) : α :=
  if required ≤ running then expr else fallback

/-- `impl Display for Error` from `src/types.rs` lines 67-94.  `running` is
the running engine's version number; `errstr` models the composition of
`ffi::sqlite3_errstr` and `CStr::to_str` (missing `ffi` module): `some s`
when the engine returns a valid UTF-8 string for the code, `none` when the
returned bytes are not valid UTF-8. -/
def Error.display (running : Int) (errstr : Int → Option String) : Error → String
  | Error.Sqlite i =>
      let res : Except Error String :=
        sqlite3_require_version2 running 3007015
          (match errstr i with
            | some s => Except.ok s
            | none => Except.error (Error.Utf8Error "invalid utf-8"))
      match res with
      | Except.ok s => s
      | Except.error _ => "SQLite error " ++ toString i
  | Error.Utf8Error e => e
  | Error.NulError e => e
  | Error.Module s => s
  | Error.VersionNotSatisfied v =>
      "requires SQLite version " ++ toString (Int.tdiv v 1000000) ++ "."
        ++ toString (Int.tmod (Int.tdiv v 1000) 1000) ++ "."
        ++ toString (Int.tmod v 1000) ++ " or above"
  | Error.NoChange => "invalid Error::NoChange"

/-- Modelled from the spec: `ffi::str_to_sqlite3` of the missing `ffi`
module converts a Rust string into an engine-allocated C string; a string
with an interior terminator byte must fail conversion (embedded-terminator
error) rather than silently truncating. -/
def str_to_sqlite3 (s : String) : Except Error String :=
  if (Char.ofNat 0) ∈ s.toList then
    Except.error (Error.NulError "nul byte found in provided data")
  else
    Except.ok s

/-- The caller-supplied `*mut *mut c_char` output slot of `into_sqlite`:
`none` models a null outer pointer (`msg.is_null()`); `some prior` models a
non-null slot currently holding `prior` (`none` for a null C string). -/
abbrev MsgSlot : Type := Option (Option String)

/-- `Error::into_sqlite` from `src/types.rs` lines 48-64.  Returns the
status code handed to the engine and the state of the output slot after the
call.  A `Sqlite` error passes its code through and never touches the slot;
every other kind renders its `Display` message, writes it into the slot only
when the slot is non-null and the C-string conversion succeeds (the `if let
Ok(s)` silently drops a conversion failure), and reports `SQLITE_ERROR`. -/
def Error.into_sqlite (e : Error) (running : Int)
    (errstr : Int → Option String) (msg : MsgSlot) : Int × MsgSlot :=
  match e with
  | Error.Sqlite code => (code, msg)
  | _ =>
      let msg' : MsgSlot :=
        match msg with
        | none => none
        | some prior =>
            match str_to_sqlite3 (e.display running errstr) with
            | Except.ok s => some (some s)
            | Except.error _ => some prior
      (SQLITE_ERROR, msg')

/-! ## sqlite3_ext_macro/src/lib.rs: entry-point generation -/

/-- Model of Rust `str::to_lowercase` restricted to the ASCII range: an
ASCII uppercase letter maps to the corresponding lowercase letter, every
other ASCII character maps to itself.  (Cargo crate names are ASCII, which
the theorems about symbol derivation assume explicitly.) -/
def rustToLowercaseChar (c : Char) : Char :=
  if 'A' ≤ c ∧ c ≤ 'Z' then Char.ofNat (c.toNat + 32) else c

/-- The export-symbol derivation performed by `sqlite3_ext_main`
(`sqlite3_ext_macro/src/lib.rs` lines 35-38): lowercase the crate name,
delete every character the regex `[^a-z]` matches (i.e. keep only ASCII
lowercase letters), and format as `sqlite3_<base>_init`. -/
def deriveExportSymbol (crateName : String) : String :=
  let lowered := crateName.toList.map rustToLowercaseChar
  let base := lowered.filter (fun c => 'a' ≤ c ∧ c ≤ 'z')
  "sqlite3_" ++ String.mk base ++ "_init"

/-- One directive inside the `sqlite3_ext_init` attribute
(`sqlite3_ext_macro/src/lib.rs` lines 161-164). -/
inductive ExtAttr where
  | exp (name : String)
  | persistent
  deriving DecidableEq, Repr

/-- The `load_result` expression the macro splices into the trampoline:
either the plain `SQLITE_OK` constant, or the version-gated
`sqlite3_require_version!(3_014_000, SQLITE_OK_LOAD_PERMANENTLY, SQLITE_OK)`
expression. -/
inductive LoadResult where
  | plainOk
  | versionGated
  deriving DecidableEq, Repr

/-- The data of the expansion produced by a successful `sqlite3_ext_init`
invocation: the chosen C symbol name (the export name when given, otherwise
the internal `<fn>_entry` name), whether the symbol is exported
(`#[no_mangle] pub`), and the `load_result` success code expression. -/
structure ExtInitExpansion where
  cName : String
  cExport : Bool
  loadResult : LoadResult
  deriving DecidableEq, Repr

/-- The directive-processing loop of `sqlite3_ext_init`
(`sqlite3_ext_macro/src/lib.rs` lines 86-103): a second `export` directive
aborts with a compile error, `persistent` sets a flag. -/
def processDirectives : List ExtAttr → Option String → Bool →
    Except String (Option String × Bool)
  | [], exp, pers => Except.ok (exp, pers)
  | ExtAttr.exp v :: rest, exp, pers =>
      match exp with
      | some _ => Except.error "export specified multiple times"
      | none => processDirectives rest (some v) pers
  | ExtAttr.persistent :: rest, exp, _ => processDirectives rest exp true

/-- The `sqlite3_ext_init` attribute macro (`sqlite3_ext_macro/src/lib.rs`
lines 83-159), from the parsed directive list to either a compile error or
the shape of the generated expansion.  `fnName` is the identifier of the
annotated Rust function. -/
def sqlite3_ext_init (attrs : List ExtAttr) (fnName : String) :
    Except String ExtInitExpansion := do
  let (exp, pers) ← processDirectives attrs none false
  let loadResult ←
    match pers with
    | false => Except.ok LoadResult.plainOk
    | true =>
        match exp with
        | some _ => Except.ok LoadResult.versionGated
        | none => Except.error "unexported extension cannot be persistent"
  Except.ok
    { cName := match exp with
        | none => fnName ++ "_entry"
        | some x => x
      cExport := exp.isSome
      loadResult := loadResult }

/-- `sqlite3_ext_main` (`sqlite3_ext_macro/src/lib.rs` lines 32-44):
forwards to `sqlite3_ext_init` with an `export = sqlite3_<base>_init`
directive derived from the crate name prepended to the user's directives. -/
def sqlite3_ext_main (attrs : List ExtAttr) (crateName fnName : String) :
    Except String ExtInitExpansion :=
  sqlite3_ext_init (ExtAttr.exp (deriveExportSymbol crateName) :: attrs) fnName

/-- Evaluation of the spliced `load_result` expression at run time on an
engine with version `running`: `sqlite3_require_version!(3_014_000,
SQLITE_OK_LOAD_PERMANENTLY, SQLITE_OK)` for the version-gated form. -/
def LoadResult.eval (lr : LoadResult) (running : Int) : Int :=
  match lr with
  | LoadResult.plainOk => SQLITE_OK
  | LoadResult.versionGated =>
      sqlite3_require_version3 running 3014000 SQLITE_OK_LOAD_PERMANENTLY SQLITE_OK

/-- The generated C entry-point trampoline (`sqlite3_ext_macro/src/lib.rs`
lines 141-151): after installing the API routine table it calls the user
init function and, on `Ok`, returns the spliced `load_result`; on `Err(e)`
it returns `ffi::handle_error(e, err_msg)`, which is modelled from the spec
as `Error::into_sqlite` (the `ffi` module is missing from the sources; the
spec says the trampoline "converts the user error to a status code and
writes an error message into the caller-supplied output slot", which is
exactly `into_sqlite`).  Returns the status code and the final state of the
error-message slot. -/
def extensionTrampoline (lr : LoadResult) (running : Int)
    (errstr : Int → Option String) (userInit : Except Error Unit)
    (errMsg : MsgSlot) : Int × MsgSlot :=
  match userInit with
  | Except.ok _ => (lr.eval running, errMsg)
  | Except.error e => e.into_sqlite running errstr errMsg

/-! ## sqlite3_ext/src/function.rs: Context and ToContextResult -/

/-- One invocation of an SQLite result-setting primitive. -/
inductive ResultPrim where
  | resultInt (v : Int)
  | resultInt64 (v : Int)
  deriving DecidableEq, Repr

/-- The typed wrapper over `sqlite3_context`
(`sqlite3_ext/src/function.rs` lines 3-6).  The opaque engine context is
observed through the trace of result-setting primitives invoked on it. -/
structure Context where
  calls : List ResultPrim
  deriving DecidableEq, Repr

/-- The `ToContextResult` capability (`sqlite3_ext/src/function.rs` lines
18-20). -/
class ToContextResult (α : Type) where
  assign_to : α → Context → Context

/-- `Context::set_result` (`sqlite3_ext/src/function.rs` lines 13-16):
delegates to the value's `assign_to`. -/
def Context.set_result {α : Type} [ToContextResult α] (ctx : Context) (val : α) :
    Context :=
  ToContextResult.assign_to val ctx

/-- Rust `i32` values, as passed to `sqlite3_result_int`. -/
structure RustI32 where
  val : Int
  deriving DecidableEq, Repr

/-- Rust `i64` values, as passed to `sqlite3_result_int64`. -/
structure RustI64 where
  val : Int
  deriving DecidableEq, Repr

/-- `impl ToContextResult for i32` (`sqlite3_ext/src/function.rs` lines
22-28): one call to `sqlite3_result_int`. -/
instance : ToContextResult RustI32 where
  assign_to v ctx := { ctx with calls := ctx.calls ++ [ResultPrim.resultInt v.val] }

/-- `impl ToContextResult for i64` (`sqlite3_ext/src/function.rs` lines
30-36): one call to `sqlite3_result_int64`. -/
instance : ToContextResult RustI64 where
  assign_to v ctx := { ctx with calls := ctx.calls ++ [ResultPrim.resultInt64 v.val] }

/-! ## src/function/mod.rs: aggregate function dispatch -/

/-- A borrowed SQLite value cell, abstract for the dispatch layer. -/
structure Value where
  tag : Nat
  deriving DecidableEq, Repr

/-- The `AggregateFunction` trait (`src/function/mod.rs` lines 10-30) for a
state type `S` and return type `R`, together with the `Default` super-trait.
`step` and `inverse` return the updated state and have no failure channel;
`value` returns a `Result`. -/
structure AggregateFunction (S R : Type) where
  dflt : S
  DEFAULT_VALUE : R
  step : S → List Value → S
  value : S → Except Error R
  inverse : S → List Value → S

/-- The observable state of one aggregate invocation context
(`InternalContext` of the missing `src/function/context.rs`): the
engine-managed per-group aggregate storage (`none` until first
initialization) and the pending result slot, which for a fallible result
holds the `Result` handed to `set_result`. -/
structure AggContextState (S R : Type) where
  agg : Option S
  result : Option (Except Error R)

/-- Modelled from the spec: `InternalContext::aggregate_context` of the
missing `src/function/context.rs`.  The state lifecycle section says the
wrapper "must locate-or-initialize this memory on every step/value/inverse
call rather than assuming prior existence": an absent state is created with
`Default::default()` and the (now present) state is returned alongside the
updated context. -/
def aggregateContextOf {S R : Type} (F : AggregateFunction S R)
    (st : AggContextState S R) : S × AggContextState S R :=
  match st.agg with
  | some s => (s, st)
  | none => (F.dflt, { st with agg := some F.dflt })

/-- Modelled from the spec: `InternalContext::try_aggregate_context` of the
missing `src/function/context.rs`.  The finalization rule says "if the
aggregate state was never constructed (zero rows seen), report a
type-defined default result rather than invoking `value` on absent state":
this accessor only locates already-constructed state and never creates
it. -/
def tryAggregateContextOf {S R : Type} (st : AggContextState S R) : Option S :=
  st.agg

/-- The `aggregate_step` trampoline (`src/function/mod.rs` lines 93-103):
locate-or-initialize the aggregate state and call the user's `step`.  Its C
signature returns nothing, and the trampoline invokes no result- or
error-setting primitive: there is no error channel. -/
def aggregate_step {S R : Type} (F : AggregateFunction S R)
    (st : AggContextState S R) (args : List Value) : AggContextState S R :=
  let (agg, st) := aggregateContextOf F st
  { st with agg := some (F.step agg args) }

/-- The `aggregate_final` trampoline (`src/function/mod.rs` lines 105-113):
if the aggregate state was constructed, set the result to `value`'s
`Result`; otherwise set the result to `Ok(F::DEFAULT_VALUE)` without
touching `value`. -/
def aggregate_final {S R : Type} (F : AggregateFunction S R)
    (st : AggContextState S R) : AggContextState S R :=
  match tryAggregateContextOf st with
  | some agg => { st with result := some (F.value agg) }
  | none => { st with result := some (Except.ok F.DEFAULT_VALUE) }

/-- The `aggregate_value` trampoline (`src/function/mod.rs` lines 115-123):
locate-or-initialize the state and set the result to `value`'s `Result`. -/
def aggregate_value {S R : Type} (F : AggregateFunction S R)
    (st : AggContextState S R) : AggContextState S R :=
  let (agg, st) := aggregateContextOf F st
  { st with result := some (F.value agg) }

/-- The `aggregate_inverse` trampoline (`src/function/mod.rs` lines
125-135): locate-or-initialize the state and call the user's `inverse`. -/
def aggregate_inverse {S R : Type} (F : AggregateFunction S R)
    (st : AggContextState S R) (args : List Value) : AggContextState S R :=
  let (agg, st) := aggregateContextOf F st
  { st with agg := some (F.inverse agg args) }

/-! ## Auxiliary definitions for the theorems -/

/-- Whether an error is the engine-native `Sqlite` kind. -/
def Error.isSqlite : Error → Bool
  | Error.Sqlite _ => true
  | _ => false

/-- Strip every character that is not an ASCII lowercase letter, written by
recursion as the spec phrases it ("stripping all non-lowercase-letter
characters"). -/
def specStripNonLowercase : List Char → List Char
  | [] => []
  | c :: cs =>
      if 'a' ≤ c ∧ c ≤ 'z' then c :: specStripNonLowercase cs
      else specStripNonLowercase cs

/-- The spec's wording of the symbol derivation: "produced by lowercasing
the crate name, stripping all non-lowercase-letter characters, and
formatting the remainder as `sqlite3_<name>_init`". -/
def specDerivedSymbol (crateName : String) : String :=
  "sqlite3_"
    ++ String.mk (specStripNonLowercase (crateName.toList.map rustToLowercaseChar))
    ++ "_init"

lemma specStripNonLowercase_eq_filter (l : List Char) :
    specStripNonLowercase l = l.filter (fun c => 'a' ≤ c ∧ c ≤ 'z') := by
  induction l with
  | nil => rfl
  | cons c cs ih =>
      by_cases h : 'a' ≤ c ∧ c ≤ 'z' <;>
        simp [specStripNonLowercase, List.filter_cons, h, ih]

/-- With no `export` directive present, directive processing succeeds and
records only whether a `persistent` directive occurred. -/
lemma processDirectives_no_export (attrs : List ExtAttr) :
    ∀ (e : Option String) (p : Bool), (∀ n, ExtAttr.exp n ∉ attrs) →
      processDirectives attrs e p =
        Except.ok (e, p || decide (ExtAttr.persistent ∈ attrs)) := by
  induction attrs with
  | nil => intro e p _; simp [processDirectives]
  | cons a rest ih =>
      intro e p hno
      cases a with
      | exp n => exact absurd (List.mem_cons_self _ _) (hno n)
      | persistent =>
          have hno' : ∀ n, ExtAttr.exp n ∉ rest := fun n h =>
            hno n (List.mem_cons_of_mem _ h)
          simp [processDirectives, ih e true hno']

/-- Directive processing reports `persistent` exactly when a `persistent`
directive occurs in the attribute list. -/
lemma processDirectives_pers (attrs : List ExtAttr) :
    ∀ (e0 : Option String) (p0 : Bool) (e : Option String) (p : Bool),
      processDirectives attrs e0 p0 = Except.ok (e, p) →
      p = (p0 || decide (ExtAttr.persistent ∈ attrs)) := by
  induction attrs with
  | nil =>
      intro e0 p0 e p h
      simp [processDirectives] at h
      simp [h.2]
  | cons a rest ih =>
      intro e0 p0 e p h
      cases a with
      | exp n =>
          cases e0 with
          | some _ => simp [processDirectives] at h
          | none =>
              simp only [processDirectives] at h
              have := ih (some n) p0 e p h
              simp [this]
      | persistent =>
          simp only [processDirectives] at h
          have := ih e0 true e p h
          simp [this]

/-- A successful `sqlite3_ext_init` expansion uses the version-gated
`load_result` exactly when a `persistent` directive was given, and the
plain `SQLITE_OK` otherwise. -/
lemma sqlite3_ext_init_loadResult (attrs : List ExtAttr) (fnName : String)
    (cfg : ExtInitExpansion) (h : sqlite3_ext_init attrs fnName = Except.ok cfg) :
    cfg.loadResult =
      (if ExtAttr.persistent ∈ attrs then LoadResult.versionGated
       else LoadResult.plainOk) := by
  unfold sqlite3_ext_init at h
  cases hpd : processDirectives attrs none false with
  | error msg => rw [hpd] at h; simp [bind, Except.bind] at h
  | ok pr =>
      obtain ⟨e, p⟩ := pr
      rw [hpd] at h
      have hp := processDirectives_pers attrs none false e p hpd
      simp only [Bool.false_or] at hp
      cases p with
      | false =>
          have hmem : ExtAttr.persistent ∉ attrs := by simpa using hp.symm
          simp only [Except.bind, bind] at h
          cases h
          simp [hmem]
      | true =>
          have hmem : ExtAttr.persistent ∈ attrs := by simpa using hp.symm
          cases e with
          | none => simp [bind, Except.bind] at h
          | some x =>
              simp only [Except.bind, bind] at h
              cases h
              simp [hmem]

/-! ## Claim theorems -/

/-- C1 counterexample: `sqlite3_ext_main`'s derivation for the crate name
`My-Extension_2` yields `sqlite3_myextension_init`, not
`sqlite3_myextension2_init` — the regex `[^a-z]` deletes the digit `2`
along with `-` and `_`. -/
theorem claim_C1_counterexample :
    deriveExportSymbol "My-Extension_2" = "sqlite3_myextension_init" ∧
    deriveExportSymbol "My-Extension_2" ≠ "sqlite3_myextension2_init" := by
  constructor
  · rfl
  · decide

/-- C1 (amended): a hosting crate named `My-Extension_2` derives the export
symbol `sqlite3_myextension_init`; in general the name is produced by
lowercasing the crate name, stripping every character that is not a
lowercase letter (digits included), and formatting the remainder as
`sqlite3_<name>_init`. -/
theorem claim_C1_symbol_derivation :
    deriveExportSymbol "My-Extension_2" = "sqlite3_myextension_init" ∧
    ∀ s : String, deriveExportSymbol s = specDerivedSymbol s := by
  refine ⟨rfl, fun s => ?_⟩
  unfold deriveExportSymbol specDerivedSymbol
  rw [specStripNonLowercase_eq_filter]

/-- C2: an `sqlite3_ext_init` attribute containing a `persistent` directive
but no `export` directive fails macro expansion with the compile error
"unexported extension cannot be persistent", before any load attempt. -/
theorem claim_C2_persistent_requires_export (attrs : List ExtAttr) (fnName : String)
    (hp : ExtAttr.persistent ∈ attrs) (hno : ∀ n, ExtAttr.exp n ∉ attrs) :
    sqlite3_ext_init attrs fnName =
      Except.error "unexported extension cannot be persistent" := by
  unfold sqlite3_ext_init
  rw [processDirectives_no_export attrs none false hno]
  simp [hp, bind, Except.bind]

theorem claim_C2_witness :
    sqlite3_ext_init [ExtAttr.persistent] "init" =
      Except.error "unexported extension cannot be persistent" :=
  claim_C2_persistent_requires_export [ExtAttr.persistent] "init"
    (by decide) (by simp)

/-- C3: for a trampoline generated by a successful `sqlite3_ext_init`
expansion, a user init returning `Ok` yields `SQLITE_OK` when persistence
was not requested; when persistence was requested it yields
`SQLITE_OK_LOAD_PERMANENTLY` on engines of version at least 3.14.0
(3014000) and falls back to `SQLITE_OK` on older engines.  A user init
returning `Err(e)` hands `e` to `handle_error`: an engine-native code
passes through unchanged, and any other error kind yields `SQLITE_ERROR`
with its rendered message written into the non-null caller-supplied
slot. -/
theorem claim_C3_trampoline_codes (attrs : List ExtAttr) (fnName : String)
    (cfg : ExtInitExpansion) (h : sqlite3_ext_init attrs fnName = Except.ok cfg)
    (running : Int) (errstr : Int → Option String) (errMsg : MsgSlot) :
    (ExtAttr.persistent ∉ attrs →
      extensionTrampoline cfg.loadResult running errstr (Except.ok ()) errMsg
        = (SQLITE_OK, errMsg))
  ∧ (ExtAttr.persistent ∈ attrs → 3014000 ≤ running →
      extensionTrampoline cfg.loadResult running errstr (Except.ok ()) errMsg
        = (SQLITE_OK_LOAD_PERMANENTLY, errMsg))
  ∧ (ExtAttr.persistent ∈ attrs → running < 3014000 →
      extensionTrampoline cfg.loadResult running errstr (Except.ok ()) errMsg
        = (SQLITE_OK, errMsg))
  ∧ (∀ code, extensionTrampoline cfg.loadResult running errstr
        (Except.error (Error.Sqlite code)) errMsg = (code, errMsg))
  ∧ (∀ e s, e.isSqlite = false →
      str_to_sqlite3 (e.display running errstr) = Except.ok s →
      ∀ prior, extensionTrampoline cfg.loadResult running errstr
        (Except.error e) (some prior) = (SQLITE_ERROR, some (some s))) := by
  have hlr := sqlite3_ext_init_loadResult attrs fnName cfg h
  refine ⟨?_, ?_, ?_, ?_, ?_⟩
  · intro hnp
    rw [hlr, if_neg hnp]
    rfl
  · intro hp hv
    rw [hlr, if_pos hp]
    simp [extensionTrampoline, LoadResult.eval, sqlite3_require_version3, hv]
  · intro hp hv
    rw [hlr, if_pos hp]
    simp [extensionTrampoline, LoadResult.eval, sqlite3_require_version3,
      not_le.mpr hv]
  · intro code
    rfl
  · intro e s hns hok prior
    cases e with
    | Sqlite code => simp [Error.isSqlite] at hns
    | Utf8Error d => simp [extensionTrampoline, Error.into_sqlite, hok]
    | NulError d => simp [extensionTrampoline, Error.into_sqlite, hok]
    | VersionNotSatisfied v => simp [extensionTrampoline, Error.into_sqlite, hok]
    | Module m => simp [extensionTrampoline, Error.into_sqlite, hok]
    | NoChange => simp [extensionTrampoline, Error.into_sqlite, hok]

theorem claim_C3_witness :
    (extensionTrampoline LoadResult.versionGated 3045000 (fun _ => none)
        (Except.ok ()) (some none) = (SQLITE_OK_LOAD_PERMANENTLY, some none))
  ∧ (extensionTrampoline LoadResult.versionGated 3008000 (fun _ => none)
        (Except.ok ()) (some none) = (SQLITE_OK, some none))
  ∧ (extensionTrampoline LoadResult.versionGated 3045000 (fun _ => none)
        (Except.error (Error.Module "boom")) (some none)
        = (SQLITE_ERROR, some (some "boom"))) := by
  have h := claim_C3_trampoline_codes [ExtAttr.exp "ep", ExtAttr.persistent] "init"
    (ExtInitExpansion.mk "ep" true LoadResult.versionGated) rfl
  refine ⟨?_, ?_, ?_⟩
  · exact (h 3045000 (fun _ => none) (some none)).2.1 (by decide) (by decide)
  · exact (h 3008000 (fun _ => none) (some none)).2.2.1 (by decide) (by decide)
  · exact (h 3045000 (fun _ => none) (some none)).2.2.2.2
      (Error.Module "boom") "boom" rfl rfl none

/-- C4: `Error::from_sqlite(rc)` returns `Ok(())` exactly when `rc` is
`SQLITE_OK`, `SQLITE_ROW`, or `SQLITE_DONE`, and otherwise returns
`Err(Error::Sqlite(rc))` carrying that exact code. -/
theorem claim_C4_from_sqlite (rc : Int) :
    (Error.from_sqlite rc = Except.ok () ↔
      rc = SQLITE_OK ∨ rc = SQLITE_ROW ∨ rc = SQLITE_DONE)
  ∧ (¬(rc = SQLITE_OK ∨ rc = SQLITE_ROW ∨ rc = SQLITE_DONE) →
      Error.from_sqlite rc = Except.error (Error.Sqlite rc)) := by
  constructor
  · constructor
    · intro h
      by_contra hc
      rw [Error.from_sqlite, if_neg hc] at h
      exact Except.noConfusion h
    · intro h
      rw [Error.from_sqlite, if_pos h]
  · intro h
    rw [Error.from_sqlite, if_neg h]

theorem claim_C4_witness :
    (Error.from_sqlite 0 = Except.ok () ∧ Error.from_sqlite 100 = Except.ok ()
      ∧ Error.from_sqlite 101 = Except.ok ())
  ∧ Error.from_sqlite 5 = Except.error (Error.Sqlite 5) := by
  refine ⟨⟨?_, ?_, ?_⟩, ?_⟩
  · exact (claim_C4_from_sqlite 0).1.mpr (by decide)
  · exact (claim_C4_from_sqlite 100).1.mpr (by decide)
  · exact (claim_C4_from_sqlite 101).1.mpr (by decide)
  · exact (claim_C4_from_sqlite 5).2 (by decide)

/-- C5 counterexample: when the message's C-string conversion fails (here:
the rendered message of `Error::Module` contains an interior nul byte),
`into_sqlite` leaves the non-null output slot exactly as it was — it does
not write a placeholder empty message.  The slot still holds its prior
null content, which differs from a written empty message. -/
theorem claim_C5_counterexample :
    (Error.Module (String.mk [Char.ofNat 0])).into_sqlite 3045000 (fun _ => none)
        (some none) = (SQLITE_ERROR, some none)
  ∧ ((Error.Module (String.mk [Char.ofNat 0])).into_sqlite 3045000 (fun _ => none)
        (some none)).2 ≠ some (some "") := by
  constructor
  · rfl
  · decide

/-- C5 (amended): `into_sqlite` never fails: an `Error::Sqlite(code)`
returns `code` unchanged and never touches the slot; every other error kind
returns the generic `SQLITE_ERROR`, writes its formatted message into the
slot only when the slot is non-null and the C-string conversion succeeds,
and when that conversion fails it leaves the slot unchanged rather than
propagating a secondary error. -/
theorem claim_C5_into_sqlite (running : Int) (errstr : Int → Option String) :
    (∀ (code : Int) (msg : MsgSlot),
      (Error.Sqlite code).into_sqlite running errstr msg = (code, msg))
  ∧ (∀ e : Error, e.isSqlite = false →
      (e.into_sqlite running errstr none = (SQLITE_ERROR, none))
    ∧ (∀ prior s, str_to_sqlite3 (e.display running errstr) = Except.ok s →
        e.into_sqlite running errstr (some prior) = (SQLITE_ERROR, some (some s)))
    ∧ (∀ prior err, str_to_sqlite3 (e.display running errstr) = Except.error err →
        e.into_sqlite running errstr (some prior) = (SQLITE_ERROR, some prior))) := by
  constructor
  · intro code msg
    rfl
  · intro e hns
    refine ⟨?_, ?_, ?_⟩
    · cases e with
      | Sqlite code => simp [Error.isSqlite] at hns
      | Utf8Error d => rfl
      | NulError d => rfl
      | VersionNotSatisfied v => rfl
      | Module m => rfl
      | NoChange => rfl
    · intro prior s hok
      cases e with
      | Sqlite code => simp [Error.isSqlite] at hns
      | Utf8Error d => simp [Error.into_sqlite, hok]
      | NulError d => simp [Error.into_sqlite, hok]
      | VersionNotSatisfied v => simp [Error.into_sqlite, hok]
      | Module m => simp [Error.into_sqlite, hok]
      | NoChange => simp [Error.into_sqlite, hok]
    · intro prior err herr
      cases e with
      | Sqlite code => simp [Error.isSqlite] at hns
      | Utf8Error d => simp [Error.into_sqlite, herr]
      | NulError d => simp [Error.into_sqlite, herr]
      | VersionNotSatisfied v => simp [Error.into_sqlite, herr]
      | Module m => simp [Error.into_sqlite, herr]
      | NoChange => simp [Error.into_sqlite, herr]

theorem claim_C5_witness :
    ((Error.Sqlite 7).into_sqlite 3045000 (fun _ => none) (some none)
        = (7, some none))
  ∧ ((Error.Module "oops").into_sqlite 3045000 (fun _ => none) none
        = (SQLITE_ERROR, none))
  ∧ ((Error.Module "oops").into_sqlite 3045000 (fun _ => none) (some none)
        = (SQLITE_ERROR, some (some "oops"))) := by
  have h := claim_C5_into_sqlite 3045000 (fun _ => none)
  refine ⟨h.1 7 (some none), ?_, ?_⟩
  · exact (h.2 (Error.Module "oops") rfl).1
  · exact (h.2 (Error.Module "oops") rfl).2.1 none "oops" rfl

/-- C6: if the aggregate state was never constructed (zero rows seen), the
finalization trampoline reports exactly `F::DEFAULT_VALUE` as a success —
for every aggregate implementation `F`, including those whose `value`
always fails, so `value` is never consulted and finalization never
fails. -/
theorem claim_C6_final_default (S R : Type) (F : AggregateFunction S R)
    (st : AggContextState S R) (h : st.agg = none) :
    aggregate_final F st =
      AggContextState.mk st.agg (some (Except.ok F.DEFAULT_VALUE)) := by
  simp [aggregate_final, tryAggregateContextOf, h]

theorem claim_C6_witness :
    aggregate_final
      (AggregateFunction.mk () (42 : Int) (fun s _ => s)
        (fun _ => Except.error Error.NoChange) (fun s _ => s))
      (AggContextState.mk none none)
    = AggContextState.mk none (some (Except.ok 42)) :=
  claim_C6_final_default Unit Int
    (AggregateFunction.mk () (42 : Int) (fun s _ => s)
      (fun _ => Except.error Error.NoChange) (fun s _ => s))
    (AggContextState.mk none none) rfl

/-- C7: the step trampoline cannot report an error to the engine: it leaves
the invocation's result/error slot exactly as it was (no error channel is
invoked), and—`AggregateFunction::step` having no failure value—it always
produces an updated aggregate state, for every aggregate implementation. -/
theorem claim_C7_step_no_error (S R : Type) (F : AggregateFunction S R)
    (st : AggContextState S R) (args : List Value) :
    ((aggregate_step F st args).result = st.result)
  ∧ ((aggregate_step F st args).agg
      = some (F.step (st.agg.getD F.dflt) args)) := by
  cases h : st.agg <;>
    simp [aggregate_step, aggregateContextOf, h]

/-- C8: `Context::set_result` on a fixed-width integer is total and its
`assign_to` invokes exactly one SQLite result-setting primitive: an `i32`
appends exactly one `sqlite3_result_int` call and an `i64` exactly one
`sqlite3_result_int64` call to the context's primitive-call trace. -/
theorem claim_C8_set_result_one_primitive (v : Int) (ctx : Context) :
    (Context.set_result ctx (RustI32.mk v)
      = Context.mk (ctx.calls ++ [ResultPrim.resultInt v]))
  ∧ (Context.set_result ctx (RustI64.mk v)
      = Context.mk (ctx.calls ++ [ResultPrim.resultInt64 v])) :=
  ⟨rfl, rfl⟩

/-- C9: the displayed message of `Error::Sqlite(code)` is the engine's
string-for-code lookup result when the running version is at least 3.7.15
(3007015) and the returned string is valid; on an older engine, or when the
lookup yields no valid string, it is the fallback `"SQLite error <code>"`. -/
theorem claim_C9_sqlite_display (running : Int) (errstr : Int → Option String)
    (i : Int) :
    (∀ s, 3007015 ≤ running → errstr i = some s →
      Error.display running errstr (Error.Sqlite i) = s)
  ∧ (running < 3007015 →
      Error.display running errstr (Error.Sqlite i) = "SQLite error " ++ toString i)
  ∧ (errstr i = none →
      Error.display running errstr (Error.Sqlite i) = "SQLite error " ++ toString i) := by
  refine ⟨?_, ?_, ?_⟩
  · intro s hv hs
    simp [Error.display, sqlite3_require_version2, hv, hs]
  · intro hv
    simp [Error.display, sqlite3_require_version2, not_le.mpr hv]
  · intro hs
    by_cases hv : 3007015 ≤ running <;>
      simp [Error.display, sqlite3_require_version2, hv, hs]

theorem claim_C9_witness :
    (Error.display 3045000 (fun c => some ("errstr for " ++ toString c))
        (Error.Sqlite 1) = "errstr for 1")
  ∧ (Error.display 3006000 (fun c => some ("errstr for " ++ toString c))
        (Error.Sqlite 1) = "SQLite error 1")
  ∧ (Error.display 3045000 (fun _ => none) (Error.Sqlite 1)
        = "SQLite error 1") := by
  refine ⟨?_, ?_, ?_⟩
  · exact (claim_C9_sqlite_display 3045000
      (fun c => some ("errstr for " ++ toString c)) 1).1 "errstr for 1"
      (by decide) rfl
  · exact (claim_C9_sqlite_display 3006000
      (fun c => some ("errstr for " ++ toString c)) 1).2.1 (by decide)
  · exact (claim_C9_sqlite_display 3045000 (fun _ => none) 1).2.2 rfl

/-- Truncating division and remainder (Rust `/` and `%` on `c_int`) agree
with the major/minor/patch decomposition of a composed version number. -/
lemma version_decompose (M m p : Int) (hM : 0 ≤ M) (hm0 : 0 ≤ m)
    (hm : m < 1000) (hp0 : 0 ≤ p) (hp : p < 1000) :
    Int.tdiv (1000000 * M + 1000 * m + p) 1000000 = M
  ∧ Int.tmod (Int.tdiv (1000000 * M + 1000 * m + p) 1000) 1000 = m
  ∧ Int.tmod (1000000 * M + 1000 * m + p) 1000 = p := by
  have hv : (0 : Int) ≤ 1000000 * M + 1000 * m + p := by positivity
  have hq : (0 : Int) ≤ (1000000 * M + 1000 * m + p) / 1000 :=
    Int.ediv_nonneg hv (by norm_num)
  refine ⟨?_, ?_, ?_⟩
  · rw [Int.tdiv_eq_ediv hv (by norm_num)]
    omega
  · rw [Int.tdiv_eq_ediv hv (by norm_num), Int.tmod_eq_emod hq (by norm_num)]
    omega
  · rw [Int.tmod_eq_emod hv (by norm_num)]
    omega

/-- C10: displaying `Error::VersionNotSatisfied(v)` yields exactly
`"requires SQLite version X.Y.Z or above"` with `X = v / 1000000`,
`Y = (v / 1000) % 1000` and `Z = v % 1000` computed by Rust's truncating
integer division and remainder; consequently, a version number composed
from a major/minor/patch triple is decomposed back into exactly that
triple. -/
theorem claim_C10_version_display (running : Int) (errstr : Int → Option String) :
    (∀ v : Int, Error.display running errstr (Error.VersionNotSatisfied v) =
      "requires SQLite version " ++ toString (Int.tdiv v 1000000) ++ "."
        ++ toString (Int.tmod (Int.tdiv v 1000) 1000) ++ "."
        ++ toString (Int.tmod v 1000) ++ " or above")
  ∧ (∀ M m p : Int, 0 ≤ M → 0 ≤ m → m < 1000 → 0 ≤ p → p < 1000 →
      Error.display running errstr
          (Error.VersionNotSatisfied (1000000 * M + 1000 * m + p)) =
        "requires SQLite version " ++ toString M ++ "." ++ toString m ++ "."
          ++ toString p ++ " or above") := by
  constructor
  · intro v
    rfl
  · intro M m p hM hm0 hm hp0 hp
    obtain ⟨h1, h2, h3⟩ := version_decompose M m p hM hm0 hm hp0 hp
    show "requires SQLite version "
        ++ toString (Int.tdiv (1000000 * M + 1000 * m + p) 1000000) ++ "."
        ++ toString (Int.tmod (Int.tdiv (1000000 * M + 1000 * m + p) 1000) 1000)
        ++ "." ++ toString (Int.tmod (1000000 * M + 1000 * m + p) 1000)
        ++ " or above" = _
    rw [h1, h2, h3]

theorem claim_C10_witness :
    Error.display 0 (fun _ => none) (Error.VersionNotSatisfied 3014000) =
      "requires SQLite version 3.14.0 or above" := by
  have h := (claim_C10_version_display 0 (fun _ => none)).2 3 14 0
    (by decide) (by decide) (by decide) (by decide) (by decide)
  norm_num at h
  exact h

end Sqlite3Ext
